import Mathlib

/-!
Shallow embedding of the datetime representation-conversion subsystem of
`pyutils` (`src/time_handling/time_formatters.py` and
`src/time_handling/time_formatters_TEST_AND_NEW_METHODS.py`).

Python machine floats are modelled as exact rationals, Python ints as `ℤ`,
raised exceptions as the `error` side of `Except`.
-/

/-- Python exception kinds relevant to the embedded code. -/
inductive PyErr where
  | valueError (msg : String)
  | typeError (msg : String)
  | keyError (msg : String)
  | runtimeError (msg : String)
  | otherError (msg : String)
deriving Repr, DecidableEq

deriving instance DecidableEq for Except

/-- A cell of a pandas Series/DataFrame column, as used by the total-time
conversion paths: integers, floats, strings, `None`, and datetime64 values
(represented by their integer epoch offset, which is what `astype(int)`
yields for them). -/
inductive Cell where
  | cInt (n : ℤ)
  | cFloat (q : ℚ)
  | cStr (s : String)
  | cNone
  | cDatetime (ns : ℤ)
deriving Repr, DecidableEq

/-- The runtime date/time-like objects that flow through the converters.
Each constructor records which library call produced the value and the
arguments that determine it. -/
inductive PyObj where
  | datetimeObj (year month day hour minute second : ℤ)
  | datetimeFromTs (ts : ℚ)
  | timeObj (hour minute second microsecond : ℤ)
  | timestampObj (ts : ℚ) (unit : String)
  | datetime64Obj (v : ℤ) (unit : String)
  | arrowObj (ts : ℚ)
  | structTimeObj (year month day hour minute second : ℤ)
  | seriesObj (cells : List Cell)
  | dataframeObj (cols : List (String × List Cell))
  | ndarrayObj (cells : List Cell)
  | strObj (s : String)
  | floatObj (q : ℚ)
  | noneObj
deriving Repr, DecidableEq

/-- `filewise.general.introspection_utils.get_type_str(obj, lowercase=True)`:
the lowercased runtime type name that `datetime_obj_converter` dispatches on. -/
def get_type_str (v : PyObj) : String :=
  match v with
  | .datetimeObj _ _ _ _ _ _ => "datetime"
  | .datetimeFromTs _ => "datetime"
  | .timeObj _ _ _ _ => "time"
  | .timestampObj _ _ => "timestamp"
  | .datetime64Obj _ _ => "datetime64"
  | .arrowObj _ => "arrow"
  | .structTimeObj _ _ _ _ _ _ => "struct_time"
  | .seriesObj _ => "series"
  | .dataframeObj _ => "dataframe"
  | .ndarrayObj _ => "ndarray"
  | .strObj _ => "str"
  | .floatObj _ => "float"
  | .noneObj => "nonetype"

/-- Whether an `Except` result is a normal return (no exception). -/
def exceptIsOk (e : Except PyErr PyObj) : Bool :=
  match e with
  | .ok _ => true
  | .error _ => false

/-- The message built by `_validate_option` when an option is rejected:
it names the offending value and the legal set. -/
def option_error_msg (explanation opt : String) (allowed : List String) : String :=
  explanation ++ " " ++ opt ++ " not supported for this operation. Choose one from "
    ++ toString allowed ++ "."

/-- `_validate_option(explanation, option, allowed_options)`: raises
`ValueError` when the option is not in the allowed list. -/
def validate_option (explanation opt : String) (allowed : List String) :
    Except PyErr Unit :=
  if opt ∈ allowed then .ok ()
  else .error (.valueError (option_error_msg explanation opt allowed))

/-- Message of the `TypeError` Python 3 raises when `7 <= frac_precision`
is evaluated with `frac_precision = None`. -/
def noneComparisonMsg : String :=
  "unsupported comparison between int and NoneType"

/-- `_validate_precision(frac_precision, option)` with default bounds 0 and 9.
The first check is guarded by `frac_precision is not None`; the second check
`7 <= frac_precision <= 9` is not, so a `None` precision reaches an
int-vs-None comparison and raises `TypeError`. -/
def validate_precision (frac_precision : Option ℤ) (opt : String) :
    Except PyErr Unit :=
  match frac_precision with
  | some p =>
    if ¬ (0 ≤ p ∧ p ≤ 9) then
      .error (.valueError "Fractional precision must be between 0 and 9.")
    else if (7 ≤ p ∧ p ≤ 9) ∧ opt ≠ "pandas" then
      .error (.valueError "Only option pandas supports this precision.")
    else .ok ()
  | none => .error (.typeError noneComparisonMsg)

/-- Modelled from the spec: `numpy_unit_list` lives in
`paramlib.global_parameters`, which is not under `src/`; the values follow
the module docstrings ("For NumPy, allowed units are
{Y, M, D, h, m, s, ms, us, ns}"). -/
def numpy_unit_list : List String := ["Y", "M", "D", "h", "m", "s", "ms", "us", "ns"]

/-- Modelled from the spec: `pandas_unit_list` lives in
`paramlib.global_parameters`, which is not under `src/`; the values follow
the module docstrings ("For Pandas, allowed units are {D, s, ms, us, ns}"). -/
def pandas_unit_list : List String := ["D", "s", "ms", "us", "ns"]

/-- `_validate_unit(unit, module)`: unit must be legal for the module. -/
def validate_unit (unit module : String) : Except PyErr Unit :=
  if module = "numpy" ∧ unit ∉ numpy_unit_list then
    .error (.valueError "Unsupported date unit for numpy.datetime64 objects.")
  else if module = "pandas" ∧ unit ∉ pandas_unit_list then
    .error (.valueError "Unsupported date unit for pandas.Timestamp objects.")
  else .ok ()

/-- Modelled from the spec: `unit_factor_dict` lives in
`paramlib.global_parameters`, which is not under `src/`; the spec gives the
factor table as day 1000, second 1, millisecond 1e-3, microsecond 1e-6,
nanosecond 1e-9. -/
def unit_factor_dict : List (String × ℚ) :=
  [("D", 1000), ("s", 1), ("ms", 1/1000), ("us", 1/1000000), ("ns", 1/1000000000)]

/-- `_float_class_list` (numpy classes represented by their names). -/
def float_class_list : List String :=
  ["float16", "float32", "f", "float64", "float", "d", "float128"]

/-- `_int_class_list` (numpy classes represented by their names; the source
list really does contain `np.float32`). -/
def int_class_list : List String :=
  ["int8", "int16", "i", "float32", "int", "int64"]

/-- Interleaves the pieces of a format template (split at its placeholders)
with the rendered values, like Python `str.format` with positional
placeholder slots. -/
def joinParts : List String → List String → String
  | [], _ => ""
  | p :: ps, [] => p ++ joinParts ps []
  | p :: ps, v :: vs => p ++ v ++ joinParts ps vs

/-- Splits a character list at each occurrence of the two-character
placeholder brace pair, returning the fixed text segments. -/
def splitBraces : List Char → List (List Char)
  | [] => [[]]
  | c1 :: c2 :: rest =>
    if c1 = Char.ofNat 123 ∧ c2 = Char.ofNat 125 then [] :: splitBraces rest
    else
      match splitBraces (c2 :: rest) with
      | [] => [[c1]]
      | seg :: segs => (c1 :: seg) :: segs
  | [c] => [[c]]

/-- `pygenutils.strings.information_output_formatters.format_string(fmt, tuple)`:
substitutes the tuple elements into the positional placeholders of `fmt`. -/
def format_string (fmt : String) (vals : List String) : String :=
  joinParts ((splitBraces fmt.data).map fun l => String.mk l) vals

/-- `_time_str_parts_fmts`: the two templates used by
`_format_arbitrary_time` (four components with days, three without). -/
def time_str_parts_fmts : List String :=
  ["\x7b\x7d days \x7b\x7d hours \x7b\x7d minutes \x7b\x7d seconds",
   "\x7b\x7d hours \x7b\x7d minutes \x7b\x7d seconds"]

/-- Rounds a rational to the nearest integer, ties to even — the rounding
Python `round` uses. -/
def roundHalfEven (y : ℚ) : ℤ :=
  let f : ℤ := ⌊y⌋
  let r : ℚ := y - (f : ℚ)
  if r < 1/2 then f
  else if 1/2 < r then f + 1
  else if f % 2 = 0 then f else f + 1

/-- Ten to an integer power, as a rational. -/
def pow10 (n : ℤ) : ℚ :=
  if 0 ≤ n then ((10 : ℚ) ^ n.toNat) else 1 / ((10 : ℚ) ^ (-n).toNat)

/-- Python `round(x, n)`: round to `n` decimal digits, ties to even. -/
def pyRoundTo (x : ℚ) (n : ℤ) : ℚ :=
  (roundHalfEven (x * pow10 n) : ℚ) / pow10 n

/-- The four components computed by `_format_arbitrary_time`:
`days, hours = divmod(floated_time // 3600, 24)` and
`minutes, seconds = divmod(floated_time % 3600, 60)` (Python floor-division
and sign-of-divisor modulo). -/
structure ArbParts where
  days : ℤ
  hours : ℤ
  minutes : ℤ
  seconds : ℚ
deriving Repr, DecidableEq

/-- Component computation of `_format_arbitrary_time`. -/
def arb_components (t : ℚ) : ArbParts :=
  let dh : ℤ := ⌊t / 3600⌋
  let days : ℤ := Int.fdiv dh 24
  let hours : ℤ := Int.fmod dh 24
  let rem : ℚ := t - 3600 * (dh : ℚ)
  let minutes : ℤ := ⌊rem / 60⌋
  let seconds : ℚ := rem - 60 * (minutes : ℚ)
  ⟨days, hours, minutes, seconds⟩

/-- Rendering of a numeric component in the emitted string (integral
rationals print like Python ints). -/
def ratStr (q : ℚ) : String :=
  if q.den = 1 then toString q.num else toString q

/-- `_format_arbitrary_time(floated_time, frac_precision)`: caps the
precision at 6, rounds the seconds component, and renders with the
four-part template when `days > 0`, the three-part one otherwise. -/
def format_arbitrary_time (t : ℚ) (frac_precision : ℤ) : String :=
  let c := arb_components t
  let p : ℤ := if frac_precision > 6 then 6 else frac_precision
  let secs : ℚ := pyRoundTo c.seconds p
  if c.days > 0 then
    format_string (time_str_parts_fmts.getD 0 "")
      [toString c.days, toString c.hours, toString c.minutes, ratStr secs]
  else
    format_string (time_str_parts_fmts.getD 1 "")
      [toString c.hours, toString c.minutes, ratStr secs]

/-- Written from the spec sentence: `days, hours = divmod(offset // 3600, 24)`;
`minutes, seconds = divmod(offset % 3600, 60)`; seconds rounded to
`min(precision, 6)` decimal places; four-part rendering iff `days > 0`. -/
def format_arbitrary_time_spec (t : ℚ) (precision : ℤ) : String :=
  let dh : ℤ := ⌊t / 3600⌋
  let days : ℤ := Int.fdiv dh 24
  let hours : ℤ := Int.fmod dh 24
  let rem : ℚ := t - 3600 * (dh : ℚ)
  let minutes : ℤ := ⌊rem / 60⌋
  let seconds : ℚ := rem - 60 * (minutes : ℚ)
  let secs : ℚ := pyRoundTo seconds (min precision 6)
  if days > 0 then
    format_string "\x7b\x7d days \x7b\x7d hours \x7b\x7d minutes \x7b\x7d seconds"
      [toString days, toString hours, toString minutes, ratStr secs]
  else
    format_string "\x7b\x7d hours \x7b\x7d minutes \x7b\x7d seconds"
      [toString hours, toString minutes, ratStr secs]



/-- The behaviour of the external string-parsing library calls wrapped by
`time_str_parsing_dict` (`datetime.strptime`, `dateutil.parser.parse`,
`pd.to_datetime`, `np.datetime64`, `arrow.get`); these live outside the
repository, so the embedding is parametric in them. -/
structure StrParseBackends where
  strptime : String → String → Except PyErr PyObj
  dateutil_parse : String → String → Except PyErr PyObj
  pd_to_datetime : String → String → String → Except PyErr PyObj
  np_datetime64 : String → String → Except PyErr PyObj
  arrow_get : String → String → Except PyErr PyObj

/-- A value of `time_str_parsing_dict`: a Python lambda together with its
arity (two or three positional parameters). -/
inductive StrEntry where
  | two (f : String → String → Except PyErr PyObj)
  | three (f : String → String → String → Except PyErr PyObj)

/-- `time_str_parsing_dict`: the per-module string-parsing lambdas.  The
`pandas` and `numpy` entries take three parameters; the numpy lambda
ignores the format string and forwards the unit. -/
def time_str_parsing_dict (B : StrParseBackends) : List (String × StrEntry) :=
  [("datetime", .two (fun s fmt => B.strptime s fmt)),
   ("dateutil", .two (fun s fmt => B.dateutil_parse s fmt)),
   ("pandas", .three (fun s fmt u => B.pd_to_datetime s fmt u)),
   ("numpy", .three (fun s _fmt u => B.np_datetime64 s u)),
   ("arrow", .two (fun s fmt => B.arrow_get s fmt))]

/-- The modules accepted by `parse_time_string` (the keys of the dict). -/
def time_str_modules : List String :=
  ["datetime", "dateutil", "pandas", "numpy", "arrow"]

/-- Calling a dispatch entry with two positional arguments: a
three-parameter lambda raises `TypeError` at the call. -/
def call_str_entry_two (e : StrEntry) (a b : String) : Except PyErr PyObj :=
  match e with
  | .two f => f a b
  | .three _ =>
    .error (.typeError "lambda missing 1 required positional argument")

/-- Calling a dispatch entry with three positional arguments: a
two-parameter lambda raises `TypeError` at the call. -/
def call_str_entry_three (e : StrEntry) (a b c : String) : Except PyErr PyObj :=
  match e with
  | .two _ =>
    .error (.typeError "lambda takes 2 positional arguments but 3 were given")
  | .three f => f a b c

/-- Message of the `ValueError` raised when no format string is given. -/
def missing_fmt_msg : String := "A datetime format string must be provided."

/-- Message of the `ValueError` raised when parsing fails. -/
def mismatch_msg : String :=
  "The time string does not match the format string provided."

/-- `parse_time_string(datetime_str, dt_fmt_str, module, unit)`: validates
the module, rejects an empty format string, then dispatches; the entry is
called with three arguments only for `pandas`, with two otherwise; a
`ValueError` from the call is replaced by the mismatch `ValueError`; other
exceptions propagate. -/
def parse_time_string (B : StrParseBackends)
    (datetime_str dt_fmt_str module unit : String) : Except PyErr PyObj :=
  match validate_option "Module" module time_str_modules with
  | .error e => .error e
  | .ok _ =>
    if dt_fmt_str = "" then .error (.valueError missing_fmt_msg)
    else
      match List.lookup module (time_str_parsing_dict B) with
      | none => .error (.typeError "NoneType object is not callable")
      | some entry =>
        match (if module = "pandas" then
                 call_str_entry_three entry datetime_str dt_fmt_str unit
               else call_str_entry_two entry datetime_str dt_fmt_str) with
        | .error (.valueError _) => .error (.valueError mismatch_msg)
        | r => r

/-- A concrete backend family whose parsers reject every input with
`ValueError`, i.e. every text is nonconforming. -/
def rejectAllBackends : StrParseBackends where
  strptime := fun _ _ => .error (.valueError "does not match format")
  dateutil_parse := fun _ _ => .error (.valueError "does not match format")
  pd_to_datetime := fun _ _ _ => .error (.valueError "does not match format")
  np_datetime64 := fun _ _ => .error (.valueError "does not match format")
  arrow_get := fun _ _ => .error (.valueError "does not match format")

/-- A value of `floated_time_parsing_dict`: a Python lambda together with
its arity (the `time` entry takes a single parameter). -/
inductive FloatEntry where
  | one (f : ℚ → Except PyErr PyObj)
  | two (f : ℚ → String → Except PyErr PyObj)

/-- `floated_time_parsing_dict`: the per-module float-parsing lambdas.
`datetime.fromtimestamp`, `pd.to_datetime` and `arrow.get` accept any
float; `np.datetime64` only accepts integral values (a Python float raises
`ValueError`); the `time` entry is a one-parameter lambda. -/
def floated_time_parsing_dict : List (String × FloatEntry) :=
  [("datetime", .two (fun t _ => .ok (.datetimeFromTs t))),
   ("time", .one (fun t => .ok (.datetimeFromTs t))),
   ("pandas", .two (fun t u => .ok (.timestampObj t u))),
   ("numpy", .two (fun t u =>
      if t.den = 1 then .ok (.datetime64Obj t.num u)
      else .error (.valueError "Could not convert object to NumPy datetime"))),
   ("arrow", .two (fun t _ => .ok (.arrowObj t)))]

/-- The module names of `floated_time_parsing_dict`. -/
def floated_time_modules : List String :=
  ["datetime", "time", "pandas", "numpy", "arrow"]

/-- Calling a float dispatch entry with two positional arguments: the
one-parameter `time` lambda raises `TypeError`. -/
def call_float_entry_two (e : FloatEntry) (t : ℚ) (u : String) :
    Except PyErr PyObj :=
  match e with
  | .one _ =>
    .error (.typeError "lambda takes 1 positional argument but 2 were given")
  | .two f => f t u

/-- `_float_time_parser(floated_time, module, unit)`: validates the module
against the float dict keys and the unit, then calls the entry with two
arguments. -/
def float_time_parsing (t : ℚ) (module unit : String) : Except PyErr PyObj :=
  match validate_option "Object type conversion" module floated_time_modules with
  | .error e => .error e
  | .ok _ =>
    match validate_unit unit module with
    | .error e => .error e
    | .ok _ =>
      match List.lookup module floated_time_parsing_dict with
      | none => .error (.typeError "NoneType object is not callable")
      | some entry => call_float_entry_two entry t unit

/-- Python `round(x)` with no digit count: nearest integer, ties to even. -/
def pyRoundWhole (t : ℚ) : ℚ := (roundHalfEven t : ℚ)

/-- Modelled from the spec: `get_nano_datetime` lives in
`pygenutils.time_handling.date_and_time_operators`, which is not under
`src/`; the spec says precisions 7..9 delegate to a nanosecond-precision
specialised path that only the nanosecond-capable backend supports. -/
def get_nano_datetime_model (t : ℚ) (module : String) : Except PyErr PyObj :=
  if module = "pandas" then .ok (.timestampObj t "ns")
  else .error (.valueError "nanosecond precision requires pandas")

/-- Abstract model of `obj.strftime(fmt)` for the scalar date/time objects
that all carry the method; the rendered text is left abstract as the
pair of the object and the format. -/
def py_strftime (obj : PyObj) (fmt : Option String) : Except PyErr PyObj :=
  .ok (.strObj (toString (repr obj) ++ "@" ++ fmt.getD ""))

/-- `_parse_float_to_string(floated_time, frac_precision, origin,
dt_fmt_str, unit, module)`.  For an arbitrary origin it formats directly
(a `None` precision would hit the `frac_precision > 6` comparison and
raise `TypeError`); for the Unix origin it rounds and re-parses for
precisions up to 6, delegates to the nanosecond path for 7..9, keeps the
native precision for `None`, and falls off the end (returning `None`) for
any other origin. -/
def parse_float_to_string (floated_time : ℚ) (frac_precision : Option ℤ)
    (origin : String) (dt_fmt_str : Option String) (unit module : String) :
    Except PyErr PyObj :=
  if origin = "arbitrary" then
    match frac_precision with
    | some p => .ok (.strObj (format_arbitrary_time floated_time p))
    | none => .error (.typeError noneComparisonMsg)
  else if origin = "unix" then
    match frac_precision with
    | some p =>
      if p ≤ 6 then
        match float_time_parsing (pyRoundWhole floated_time) module unit with
        | .error e => .error e
        | .ok obj => py_strftime obj dt_fmt_str
      else if 7 ≤ p ∧ p ≤ 9 then
        get_nano_datetime_model floated_time module
      else .error (.otherError "local variable dt_str referenced before assignment")
    | none =>
      match float_time_parsing floated_time module unit with
      | .error e => .error e
      | .ok obj => py_strftime obj dt_fmt_str
  else .ok .noneObj

/-- Whether a Python string argument is falsy (`None` or empty). -/
def falsyOptStr (o : Option String) : Bool :=
  match o with
  | none => true
  | some s => s = ""

/-- The modules accepted by `parse_float_time`:
`["str"] + list(floated_time_parsing_dict.keys())`. -/
def parse_float_allowed_modules : List String :=
  "str" :: floated_time_modules

/-- `parse_float_time(datetime_float, frac_precision, origin, unit,
dt_fmt_str, module)`: validates module, format string (unless converting
to `str`), precision and unit, then dispatches to the string or object
path. -/
def parse_float_time (datetime_float : ℚ) (frac_precision : Option ℤ)
    (origin unit : String) (dt_fmt_str : Option String) (module : String) :
    Except PyErr PyObj :=
  match validate_option "Object type conversion" module parse_float_allowed_modules with
  | .error e => .error e
  | .ok _ =>
    if module ≠ "str" ∧ falsyOptStr dt_fmt_str then
      .error (.valueError "You must provide a formatting string.")
    else
      match validate_precision frac_precision module with
      | .error e => .error e
      | .ok _ =>
        match validate_unit unit module with
        | .error e => .error e
        | .ok _ =>
          if module = "str" then
            parse_float_to_string datetime_float frac_precision origin
              dt_fmt_str unit module
          else float_time_parsing datetime_float module unit

/-- The legal conversion targets per detected source type: the key sets of
the per-type dictionaries collected in `conversion_opt_dict`. -/
def datetime_obj_conversion_keys : List String :=
  ["float", "time", "pandas", "numpy", "arrow", "str"]

/-- Key set of `datetime64_obj_conversion_dict`. -/
def datetime64_obj_conversion_keys : List String :=
  ["float", "datetime", "time", "pandas", "arrow", "str"]

/-- Key set of `datetime_time_obj_conversion_dict`. -/
def datetime_time_obj_conversion_keys : List String :=
  ["float", "datetime", "time", "pandas", "numpy", "arrow", "str"]

/-- Key set of `timestamp_obj_conversion_dict`. -/
def timestamp_obj_conversion_keys : List String :=
  ["float", "datetime", "time", "numpy", "arrow", "str"]

/-- Key set of `arrow_obj_conversion_dict`. -/
def arrow_obj_conversion_keys : List String :=
  ["float", "datetime", "time", "pandas", "numpy", "str"]

/-- Key set of `time_stt_obj_conversion_dict`. -/
def time_stt_obj_conversion_keys : List String :=
  ["float", "datetime", "pandas", "numpy", "arrow"]

/-- Key set of `_dt_like_obj_conversion_dict` (DataFrame, Series, ndarray). -/
def dt_like_obj_conversion_keys : List String :=
  ["float", "pandas", "str"]

/-- `conversion_opt_dict`: maps the detected type name to the legal target
set of its conversion dictionary (`none` models the `KeyError` a lookup of
an unknown type name would raise). -/
def conversion_opt_dict (obj_type : String) : Option (List String) :=
  if obj_type = "datetime" then some datetime_obj_conversion_keys
  else if obj_type = "datetime64" then some datetime64_obj_conversion_keys
  else if obj_type = "time" then some datetime_time_obj_conversion_keys
  else if obj_type = "timestamp" then some timestamp_obj_conversion_keys
  else if obj_type = "arrow" then some arrow_obj_conversion_keys
  else if obj_type = "struct_time" then some time_stt_obj_conversion_keys
  else if obj_type = "dataframe" then some dt_like_obj_conversion_keys
  else if obj_type = "series" then some dt_like_obj_conversion_keys
  else if obj_type = "ndarray" then some dt_like_obj_conversion_keys
  else none

/-- The `TypeError` Python raises when `datetime_obj_converter` calls
`perform_conversion(conversion_dict, datetime_obj, unit=unit,
float_class=float_class, int_class=int_class, dt_fmt_str=dt_fmt_str)`:
`perform_conversion` is declared as
`def perform_conversion(conversion_dict, obj, *args)` and accepts no
keyword arguments, so the call itself raises before any conversion
lambda runs (and outside the try block that would wrap conversion
failures in `RuntimeError`). -/
def kwargMsg : String :=
  "perform_conversion got an unexpected keyword argument unit"

/-- `datetime_obj_converter(datetime_obj, convert_to, unit, float_class,
int_class, dt_fmt_str)`: validates the target, unit and precision classes,
detects the object type name, validates the target against that type's
conversion table, then invokes `perform_conversion` with keyword
arguments — which raises `TypeError` unconditionally. -/
def datetime_obj_converter (datetime_obj : PyObj)
    (convert_to unit float_class int_class : String)
    (dt_fmt_str : Option String) : Except PyErr PyObj :=
  if convert_to = "" then
    .error (.valueError "Argument convert_to not provided.")
  else
    match validate_option "Time unit factor" unit (unit_factor_dict.map Prod.fst) with
    | .error e => .error e
    | .ok _ =>
      match validate_option "Numpy float precision class" float_class float_class_list with
      | .error e => .error e
      | .ok _ =>
        match validate_option "Numpy integer precision class" int_class int_class_list with
        | .error e => .error e
        | .ok _ =>
          let obj_type := get_type_str datetime_obj
          match conversion_opt_dict obj_type with
          | none => .error (.keyError obj_type)
          | some allowed_targets =>
            match validate_option
                ("Object type conversion for object type " ++ obj_type ++ " where")
                convert_to allowed_targets with
            | .error e => .error e
            | .ok _ => .error (.typeError kwargMsg)

/-- The round trip of testable property §8: parse an epoch float at unit
`u`, then convert the parsed object back to an epoch offset in the same
unit through the representation converter. -/
def round_trip_float (f : ℚ) (u : String) (dt_fmt_str : Option String)
    (module : String) : Except PyErr PyObj :=
  match parse_float_time f none "unix" u dt_fmt_str module with
  | .error e => .error e
  | .ok obj => datetime_obj_converter obj "float" u "d" "int" none

/-- Accumulating decimal-digit parser over a character list (`none` when a
non-digit is met). -/
def charsToNatAux (acc : ℕ) : List Char → Option ℕ
  | [] => some acc
  | c :: rest =>
    if c.isDigit then charsToNatAux (acc * 10 + (c.toNat - 48)) rest else none

/-- Parses a non-empty all-digit character list as a natural number. -/
def charsToNat (l : List Char) : Option ℕ :=
  match l with
  | [] => none
  | _ => charsToNatAux 0 l

/-- Python `int(s)` on a string: an optional minus sign followed by
decimal digits; anything else raises `ValueError`. -/
def str_to_int (s : String) : Option ℤ :=
  match s.data with
  | [] => none
  | c :: rest =>
    if c = Char.ofNat 45 then (charsToNat rest).map (fun n => -(n : ℤ))
    else (charsToNat (c :: rest)).map (fun n => (n : ℤ))

/-- `Series.astype(int)` applied to one object-dtype cell: Python `int()`
coercion — ints pass through, floats truncate toward zero, numeric strings
parse (`ValueError` otherwise), `None` raises `TypeError`, datetime64
values yield their integer epoch offset. -/
def astype_int (c : Cell) : Except PyErr ℤ :=
  match c with
  | .cInt n => .ok n
  | .cFloat q => .ok (if 0 ≤ q then ⌊q⌋ else ⌈q⌉)
  | .cStr s =>
    match str_to_int s with
    | some n => .ok n
    | none => .error (.valueError "invalid literal for int with base 10")
  | .cNone =>
    .error (.typeError "int argument must be a string or a real number, not NoneType")
  | .cDatetime ns => .ok ns

/-- `column.astype(int)` over a whole column: fails at the first cell whose
coercion raises. -/
def astype_int_col (cells : List Cell) : Except PyErr (List ℤ) :=
  match cells with
  | [] => .ok []
  | c :: cs =>
    match astype_int c with
    | .error e => .error e
    | .ok n =>
      match astype_int_col cs with
      | .error e => .error e
      | .ok ns => .ok (n :: ns)

/-- The column loop of `_total_time_complex_data` for DataFrames: each
column is converted with `astype(int_class) * unit_factor`; a `ValueError`
is swallowed (`except ValueError: pass`) leaving the column unchanged; any
other exception escapes the inner `try`. -/
def total_time_df_cols (cols : List (String × List Cell)) (unit_factor : ℚ) :
    Except PyErr (List (String × List Cell)) :=
  match cols with
  | [] => .ok []
  | (name, cells) :: rest =>
    match astype_int_col cells with
    | .ok ns =>
      (match total_time_df_cols rest unit_factor with
       | .ok rest2 => .ok ((name, ns.map fun (n : ℤ) => Cell.cFloat ((n : ℚ) * unit_factor)) :: rest2)
       | .error e => .error e)
    | .error (.valueError _) =>
      (match total_time_df_cols rest unit_factor with
       | .ok rest2 => .ok ((name, cells) :: rest2)
       | .error e => .error e)
    | .error e => .error e

/-- `_total_time_complex_data(datetime_obj, int_class, unit_factor)` from
`time_formatters.py`: Series are converted wholesale (any failure becomes
`RuntimeError`); DataFrames go through the per-column loop whose
non-`ValueError` failures are wrapped in `RuntimeError` by the outer
`except Exception`; any other input type falls through and returns `None`. -/
def total_time_complex_data (obj : PyObj) (int_class : String)
    (unit_factor : ℚ) : Except PyErr PyObj :=
  match obj with
  | .seriesObj cells =>
    (match astype_int_col cells with
     | .ok ns => .ok (.seriesObj (ns.map fun (n : ℤ) => Cell.cFloat ((n : ℚ) * unit_factor)))
     | .error _ =>
       .error (.runtimeError "Error in _total_time_complex_data method for Series type object"))
  | .dataframeObj cols =>
    (match total_time_df_cols cols unit_factor with
     | .ok cols2 => .ok (.dataframeObj cols2)
     | .error _ =>
       .error (.runtimeError "Error in _total_time_complex_data method for DataFrame type object"))
  | _ => .ok .noneObj

namespace TFTest

/-- `date_unit_factor_dict` from
`time_formatters_TEST_AND_NEW_METHODS.py`: D maps to 1000 (the legacy
day factor), s to 1, ms to 1e-3, us to 1e-6, ns to 1e-9. -/
def date_unit_factor_dict : List (String × ℚ) :=
  [("D", 1000), ("s", 1), ("ms", 1/1000), ("us", 1/1000000), ("ns", 1/1000000000)]

/-- The DataFrame loop of the TEST-file `total_time_complex_data`: each
iteration re-copies the ORIGINAL object into `total_time_obj` and converts
one column of that fresh copy; `ValueError` is swallowed, any other
exception escapes; nothing of the loop's work survives because the
function returns the untouched input afterwards. -/
def df_loop (cols : List (String × List Cell)) : Except PyErr Unit :=
  match cols with
  | [] => .ok ()
  | (_, cells) :: rest =>
    match astype_int_col cells with
    | .ok _ => df_loop rest
    | .error (.valueError _) => df_loop rest
    | .error e => .error e

/-- `total_time_complex_data(datetime_obj, int_class, date_unit_factor)`
from `time_formatters_TEST_AND_NEW_METHODS.py`: the Series branch computes
`astype(int_class) * date_unit_factor` into a local and then falls off the
end of the function (returning `None`); the DataFrame branch runs the
copy-per-iteration loop and returns the ORIGINAL `datetime_obj`;
exceptions other than the swallowed `ValueError` are re-raised as bare
`Exception`. -/
def total_time_complex_data (obj : PyObj) (int_class : String)
    (date_unit_factor : ℚ) : Except PyErr PyObj :=
  match obj with
  | .seriesObj cells =>
    (match astype_int_col cells with
     | .ok _ => .ok .noneObj
     | .error _ => .error (.otherError "Exception"))
  | .dataframeObj cols =>
    (match df_loop cols with
     | .ok _ => .ok (.dataframeObj cols)
     | .error _ => .error (.otherError "Exception"))
  | _ => .ok .noneObj

end TFTest

/-- C6: for every integer precision value, `_validate_precision` succeeds
exactly on [0,6] with any backend and on [7,9] with the pandas backend;
every other integer value (outside [0,9], or in [7,9] with a non-pandas
backend) raises. -/
theorem validatePrecisionIntCharacterisation :
    ∀ (p : ℤ) (opt : String),
      validate_precision (some p) opt = .ok () ↔
        ((0 ≤ p ∧ p ≤ 6) ∨ (7 ≤ p ∧ p ≤ 9 ∧ opt = "pandas")) := by
  intro p opt
  simp only [validate_precision]
  by_cases hrange : 0 ≤ p ∧ p ≤ 9
  · rw [if_neg (not_not_intro hrange)]
    by_cases h79 : (7 ≤ p ∧ p ≤ 9) ∧ opt ≠ "pandas"
    · rw [if_pos h79]
      refine iff_of_false (fun h => Except.noConfusion h) ?_
      rintro (⟨ha, hb⟩ | ⟨ha, hb, hc⟩)
      · exact absurd hb (by omega)
      · exact h79.2 hc
    · rw [if_neg h79]
      refine iff_of_true rfl ?_
      by_cases hp : p ≤ 6
      · exact Or.inl ⟨hrange.1, hp⟩
      · refine Or.inr ⟨by omega, hrange.2, ?_⟩
        by_contra hne
        exact h79 ⟨⟨by omega, hrange.2⟩, hne⟩
  · rw [if_pos hrange]
    refine iff_of_false (fun h => Except.noConfusion h) ?_
    rintro (⟨ha, hb⟩ | ⟨ha, hb, _⟩) <;> exact hrange ⟨by omega, by omega⟩

/-- C1: converting the naive datetime 1970-01-01T00:00:01 to `float` at
unit `s` does not return `1.0`: the converter's keyword-argument call of
`perform_conversion` raises `TypeError` before any conversion lambda can
run. -/
theorem converterEpochSecondTypeError :
    datetime_obj_converter (.datetimeObj 1970 1 1 0 0 1) "float" "s" "d" "int" none =
      .error (.typeError kwargMsg) := by
  decide

/-- C7: for every value whose detected type name is `datetime`, requesting
conversion to `datetime` fails with the `ValueError` produced by
`_validate_option` (which lists the legal target set), because `datetime`
is absent from the key set of `datetime_obj_conversion_dict`; the failure
is a validation error, not the `TypeError`/`RuntimeError` a conversion
call would produce. -/
theorem datetimeSelfConversionRejected :
    ∀ (v : PyObj), get_type_str v = "datetime" →
      "datetime" ∉ datetime_obj_conversion_keys ∧
      datetime_obj_converter v "datetime" "s" "d" "int" none =
        .error (.valueError (option_error_msg
          ("Object type conversion for object type " ++ "datetime" ++ " where")
          "datetime" datetime_obj_conversion_keys)) := by
  intro v h
  refine ⟨by decide, ?_⟩
  cases v <;> first
    | rfl
    | simp [get_type_str] at h

/-- A closed instance of the self-conversion rejection at the epoch
datetime. -/
theorem datetimeSelfConversionRejectedWitness :
    "datetime" ∉ datetime_obj_conversion_keys ∧
    datetime_obj_converter (.datetimeObj 1970 1 1 0 0 1) "datetime" "s" "d" "int" none =
      .error (.valueError (option_error_msg
        ("Object type conversion for object type " ++ "datetime" ++ " where")
        "datetime" datetime_obj_conversion_keys)) :=
  datetimeSelfConversionRejected (.datetimeObj 1970 1 1 0 0 1) rfl

/-- C5: the TEST-file factor table maps D to 1000, s to 1, ms to 1e-3,
us to 1e-6 and ns to 1e-9, but the TEST-file `total_time_complex_data`
never returns the product: the Series branch falls off the end of the
function and returns `None`, and the DataFrame branch returns the input
unchanged. -/
theorem testFactorTableAndConversionLost :
    List.lookup "D" TFTest.date_unit_factor_dict = some 1000 ∧
    List.lookup "s" TFTest.date_unit_factor_dict = some 1 ∧
    List.lookup "ms" TFTest.date_unit_factor_dict = some (1/1000) ∧
    List.lookup "us" TFTest.date_unit_factor_dict = some (1/1000000) ∧
    List.lookup "ns" TFTest.date_unit_factor_dict = some (1/1000000000) ∧
    TFTest.total_time_complex_data (.seriesObj [.cInt 2]) "int" 1 = .ok .noneObj ∧
    TFTest.total_time_complex_data (.dataframeObj [("a", [.cInt 2])]) "int" 1 =
      .ok (.dataframeObj [("a", [.cInt 2])]) :=
  ⟨rfl, rfl, rfl, rfl, rfl, rfl, rfl⟩

/-- C10: with module `numpy`, `parse_time_string` never returns a value:
the empty-format check raises `ValueError` first, and otherwise the
three-parameter numpy entry is called with only two arguments, raising
`TypeError`, which the `except ValueError` clause does not catch. -/
theorem parseTimeStringNumpyNeverReturns :
    ∀ (B : StrParseBackends) (text fmt unit : String),
      exceptIsOk (parse_time_string B text fmt "numpy" unit) = false ∧
      (fmt ≠ "" →
        parse_time_string B text fmt "numpy" unit =
          .error (.typeError "lambda missing 1 required positional argument")) := by
  intro B text fmt unit
  by_cases hf : fmt = ""
  · subst hf
    exact ⟨rfl, fun hne => absurd rfl hne⟩
  · have hres : parse_time_string B text fmt "numpy" unit =
        .error (.typeError "lambda missing 1 required positional argument") := by
      unfold parse_time_string
      rw [show validate_option "Module" "numpy" time_str_modules = .ok () from rfl]
      rw [if_neg hf]
      rfl
    exact ⟨by rw [hres]; rfl, fun _ => hres⟩

/-- A closed instance of the numpy dead-path result, with concrete backends
that report every text as nonconforming. -/
theorem parseTimeStringNumpyNeverReturnsWitness :
    exceptIsOk (parse_time_string rejectAllBackends "2024" "%Y" "numpy" "ns") = false ∧
    parse_time_string rejectAllBackends "2024" "%Y" "numpy" "ns" =
      .error (.typeError "lambda missing 1 required positional argument") :=
  ⟨(parseTimeStringNumpyNeverReturns rejectAllBackends "2024" "%Y" "ns").1,
   (parseTimeStringNumpyNeverReturns rejectAllBackends "2024" "%Y" "ns").2 (by decide)⟩

/-- C2: for every supported module, epoch value, unit and non-empty format
string, `parse_float_time` with its default `frac_precision=None` raises
`TypeError` inside `_validate_precision` (the unguarded `7 <= None`
comparison), instead of parsing at native precision. -/
theorem parseFloatTimeNonePrecisionTypeError :
    ∀ (module : String), module ∈ parse_float_allowed_modules →
    ∀ (f : ℚ) (unit fmt : String), fmt ≠ "" →
      parse_float_time f none "unix" unit (some fmt) module =
        .error (.typeError noneComparisonMsg) := by
  intro module hm f unit fmt hfmt
  unfold parse_float_time
  rw [show validate_option "Object type conversion" module parse_float_allowed_modules
        = .ok () from by unfold validate_option; rw [if_pos hm]]
  rw [if_neg (fun hc => hfmt (by simpa [falsyOptStr] using hc.2))]
  rfl

/-- A closed instance of the `None`-precision failure at epoch 0 with the
default datetime module. -/
theorem parseFloatTimeNonePrecisionTypeErrorWitness :
    parse_float_time 0 none "unix" "s" (some "%Y-%m-%d") "datetime" =
      .error (.typeError noneComparisonMsg) :=
  parseFloatTimeNonePrecisionTypeError "datetime" (by decide) 0 "s" "%Y-%m-%d" (by decide)

/-- C9: the parse-then-convert-back round trip never returns a value for
any epoch float, unit, format string and module: parsing with the default
`None` precision already raises `TypeError` in `_validate_precision`, and
even a successfully parsed object would hit the keyword-argument
`TypeError` inside `datetime_obj_converter`. -/
theorem roundTripAlwaysErrors :
    ∀ (f : ℚ) (u : String) (fmt : Option String) (module : String),
      exceptIsOk (round_trip_float f u fmt module) = false := by
  intro f u fmt module
  unfold round_trip_float parse_float_time
  cases validate_option "Object type conversion" module parse_float_allowed_modules with
  | error e => rfl
  | ok _ =>
    by_cases hc : module ≠ "str" ∧ falsyOptStr fmt
    · rw [if_pos hc]
      rfl
    · rw [if_neg hc]
      rfl

/-- C8 (amended): for every module in the dispatch table an empty format
string raises the missing-format `ValueError` before any parse; for the
modules whose entry is called with a matching arity (`datetime`,
`dateutil`, `arrow` with two arguments; `pandas` with three), a
`ValueError` from the underlying parser — the nonconforming-text case —
is converted into the format-mismatch `ValueError`; for `numpy` the
two-argument call of the three-parameter entry raises `TypeError`
instead. -/
theorem parseTimeStringContract :
    ∀ (B : StrParseBackends) (text fmt unit m : String),
      (∀ mod ∈ time_str_modules,
        parse_time_string B text "" mod unit = .error (.valueError missing_fmt_msg)) ∧
      (fmt ≠ "" → B.strptime text fmt = .error (.valueError m) →
        parse_time_string B text fmt "datetime" unit = .error (.valueError mismatch_msg)) ∧
      (fmt ≠ "" → B.dateutil_parse text fmt = .error (.valueError m) →
        parse_time_string B text fmt "dateutil" unit = .error (.valueError mismatch_msg)) ∧
      (fmt ≠ "" → B.pd_to_datetime text fmt unit = .error (.valueError m) →
        parse_time_string B text fmt "pandas" unit = .error (.valueError mismatch_msg)) ∧
      (fmt ≠ "" → B.arrow_get text fmt = .error (.valueError m) →
        parse_time_string B text fmt "arrow" unit = .error (.valueError mismatch_msg)) ∧
      (fmt ≠ "" → parse_time_string B text fmt "numpy" unit =
        .error (.typeError "lambda missing 1 required positional argument")) := by
  intro B text fmt unit m
  refine ⟨?_, ?_, ?_, ?_, ?_, ?_⟩
  · intro mod hmod
    unfold parse_time_string
    rw [show validate_option "Module" mod time_str_modules = .ok () from by
          unfold validate_option; rw [if_pos hmod]]
    rw [if_pos rfl]
  · intro hf hb
    unfold parse_time_string
    rw [show validate_option "Module" "datetime" time_str_modules = .ok () from rfl]
    rw [if_neg hf]
    show (match B.strptime text fmt with
          | .error (.valueError _) => Except.error (PyErr.valueError mismatch_msg)
          | r => r) = _
    rw [hb]
  · intro hf hb
    unfold parse_time_string
    rw [show validate_option "Module" "dateutil" time_str_modules = .ok () from rfl]
    rw [if_neg hf]
    show (match B.dateutil_parse text fmt with
          | .error (.valueError _) => Except.error (PyErr.valueError mismatch_msg)
          | r => r) = _
    rw [hb]
  · intro hf hb
    unfold parse_time_string
    rw [show validate_option "Module" "pandas" time_str_modules = .ok () from rfl]
    rw [if_neg hf]
    show (match B.pd_to_datetime text fmt unit with
          | .error (.valueError _) => Except.error (PyErr.valueError mismatch_msg)
          | r => r) = _
    rw [hb]
  · intro hf hb
    unfold parse_time_string
    rw [show validate_option "Module" "arrow" time_str_modules = .ok () from rfl]
    rw [if_neg hf]
    show (match B.arrow_get text fmt with
          | .error (.valueError _) => Except.error (PyErr.valueError mismatch_msg)
          | r => r) = _
    rw [hb]
  · intro hf
    unfold parse_time_string
    rw [show validate_option "Module" "numpy" time_str_modules = .ok () from rfl]
    rw [if_neg hf]
    rfl

/-- A closed instance of the parse-time-string contract with the
reject-all backends: the empty format is rejected for the datetime module,
nonconforming text yields the mismatch error for datetime, and the numpy
path raises `TypeError`. -/
theorem parseTimeStringContractWitness :
    parse_time_string rejectAllBackends "2024" "" "datetime" "ns" =
      .error (.valueError missing_fmt_msg) ∧
    parse_time_string rejectAllBackends "2024" "%d" "datetime" "ns" =
      .error (.valueError mismatch_msg) ∧
    parse_time_string rejectAllBackends "2024" "%d" "numpy" "ns" =
      .error (.typeError "lambda missing 1 required positional argument") :=
  ⟨(parseTimeStringContract rejectAllBackends "2024" "%d" "ns" "does not match format").1
      "datetime" (by decide),
   (parseTimeStringContract rejectAllBackends "2024" "%d" "ns" "does not match format").2.1
      (by decide) rfl,
   (parseTimeStringContract rejectAllBackends "2024" "%d" "ns" "does not match format").2.2.2.2.2
      (by decide)⟩

/-- C8 counterexample: with module `numpy` and a backend that reports the
text as nonconforming (a `ValueError`), `parse_time_string` does not raise
the format-mismatch `ValueError` — it raises `TypeError` from the
two-argument call of the three-parameter numpy entry. -/
theorem parseTimeStringNumpyNotMismatch :
    parse_time_string rejectAllBackends "abc" "%Y" "numpy" "ns" =
      .error (.typeError "lambda missing 1 required positional argument") ∧
    parse_time_string rejectAllBackends "abc" "%Y" "numpy" "ns" ≠
      .error (.valueError mismatch_msg) := by
  constructor
  · rfl
  · intro h
    exact absurd (rfl.symm.trans h) (by decide)

/-- Whether a column's `astype(int)` conversion either succeeds or fails
with a `ValueError` (the only exception the DataFrame loop tolerates). -/
def value_error_tolerant (cells : List Cell) : Bool :=
  match astype_int_col cells with
  | .ok _ => true
  | .error (.valueError _) => true
  | .error _ => false

/-- A successful whole-column `astype(int)` preserves the row count. -/
theorem astype_int_col_length :
    ∀ {cells : List Cell} {ns : List ℤ},
      astype_int_col cells = .ok ns → ns.length = cells.length := by
  intro cells
  induction cells with
  | nil =>
    intro ns h
    simp only [astype_int_col] at h
    cases h
    rfl
  | cons c cs ih =>
    intro ns h
    simp only [astype_int_col] at h
    cases hc : astype_int c with
    | error e => rw [hc] at h; cases h
    | ok n =>
      rw [hc] at h
      cases hcs : astype_int_col cs with
      | error e => rw [hcs] at h; cases h
      | ok ms =>
        rw [hcs] at h
        cases h
        simp [ih hcs]

/-- The DataFrame column loop of `_total_time_complex_data` succeeds when
every failing column fails with `ValueError`, keeping the column names,
converting the columns whose `astype` succeeds, and leaving the failing
columns untouched. -/
theorem total_time_df_cols_ok :
    ∀ (cols : List (String × List Cell)) (uf : ℚ),
      (∀ c ∈ cols, value_error_tolerant c.2 = true) →
      ∃ cols2, total_time_df_cols cols uf = .ok cols2 ∧
        cols2.map Prod.fst = cols.map Prod.fst ∧
        List.Forall₂ (fun c c2 =>
          c2.2.length = c.2.length ∧
          (match astype_int_col c.2 with
           | .ok ns => c2.2 = ns.map fun (n : ℤ) => Cell.cFloat ((n : ℚ) * uf)
           | .error _ => c2.2 = c.2)) cols cols2 := by
  intro cols uf
  induction cols with
  | nil => exact fun _ => ⟨[], rfl, rfl, List.Forall₂.nil⟩
  | cons c rest ih =>
    intro hall
    obtain ⟨name, cells⟩ := c
    obtain ⟨rest2, hrest, hnames, hfa⟩ :=
      ih (fun x hx => hall x (List.mem_cons_of_mem _ hx))
    have hc := hall (name, cells) (List.mem_cons_self _ _)
    unfold value_error_tolerant at hc
    cases hac : astype_int_col cells with
    | ok ns =>
      refine ⟨(name, ns.map fun (n : ℤ) => Cell.cFloat ((n : ℚ) * uf)) :: rest2, ?_, ?_, ?_⟩
      · unfold total_time_df_cols
        rw [hac, hrest]
      · simpa using hnames
      · refine List.Forall₂.cons ⟨?_, ?_⟩ hfa
        · simp [astype_int_col_length hac]
        · simp only [hac]
    | error e =>
      rw [hac] at hc
      cases e with
      | valueError msg =>
        refine ⟨(name, cells) :: rest2, ?_, ?_, ?_⟩
        · unfold total_time_df_cols
          rw [hac, hrest]
        · simpa using hnames
        · refine List.Forall₂.cons ⟨rfl, ?_⟩ hfa
          simp only [hac]
      | typeError msg => cases hc
      | keyError msg => cases hc
      | runtimeError msg => cases hc
      | otherError msg => cases hc

/-- C4 (amended): converting a DataFrame to total numeric time leaves
every column whose `astype` conversion raises `ValueError` untouched,
converts every other column, preserves the column set and row counts, and
raises nothing — provided every failing column fails with `ValueError`;
a column failing with any other exception (e.g. `TypeError` from a `None`
cell) instead aborts the whole call with `RuntimeError`. -/
theorem dfTotalTimeValueErrorTolerance :
    ∀ (cols : List (String × List Cell)) (uf : ℚ),
      (∀ c ∈ cols, value_error_tolerant c.2 = true) →
      ∃ cols2,
        total_time_complex_data (.dataframeObj cols) "int" uf =
          .ok (.dataframeObj cols2) ∧
        cols2.map Prod.fst = cols.map Prod.fst ∧
        List.Forall₂ (fun c c2 =>
          c2.2.length = c.2.length ∧
          (match astype_int_col c.2 with
           | .ok ns => c2.2 = ns.map fun (n : ℤ) => Cell.cFloat ((n : ℚ) * uf)
           | .error _ => c2.2 = c.2)) cols cols2 := by
  intro cols uf hall
  obtain ⟨cols2, hok, hnames, hfa⟩ := total_time_df_cols_ok cols uf hall
  refine ⟨cols2, ?_, hnames, hfa⟩
  simp only [total_time_complex_data]
  rw [hok]

/-- A closed instance of the tolerance theorem: a three-column table whose
middle column is non-temporal text (raising `ValueError`) is returned with
the two temporal columns converted and the middle column untouched. -/
theorem dfTotalTimeValueErrorToleranceWitness :
    ∃ cols2,
      total_time_complex_data
        (.dataframeObj [("a", [Cell.cDatetime 100]), ("b", [Cell.cStr "x"]),
          ("c", [Cell.cDatetime 200])]) "int" 1 =
        .ok (.dataframeObj cols2) ∧
      cols2.map Prod.fst =
        ([("a", [Cell.cDatetime 100]), ("b", [Cell.cStr "x"]),
          ("c", [Cell.cDatetime 200])] : List (String × List Cell)).map Prod.fst ∧
      List.Forall₂ (fun c c2 =>
        c2.2.length = c.2.length ∧
        (match astype_int_col c.2 with
         | .ok ns => c2.2 = ns.map fun (n : ℤ) => Cell.cFloat ((n : ℚ) * 1)
         | .error _ => c2.2 = c.2))
        [("a", [Cell.cDatetime 100]), ("b", [Cell.cStr "x"]),
         ("c", [Cell.cDatetime 200])] cols2 :=
  dfTotalTimeValueErrorTolerance
    [("a", [Cell.cDatetime 100]), ("b", [Cell.cStr "x"]), ("c", [Cell.cDatetime 200])]
    1 (by decide)

/-- C4 counterexample: a three-column table whose middle column raises a
`TypeError` (a `None` cell) makes the conversion raise `RuntimeError` —
an exception escapes to the caller and no DataFrame is returned, contrary
to the claim. -/
theorem dfTotalTimeTypeErrorEscapes :
    total_time_complex_data
      (.dataframeObj [("a", [Cell.cDatetime 100]), ("b", [Cell.cNone]),
        ("c", [Cell.cDatetime 200])]) "int" 1 =
      .error (.runtimeError
        "Error in _total_time_complex_data method for DataFrame type object") := by
  decide

/-- C3: arbitrary-origin formatting follows the divmod decomposition with
seconds rounded at `min(precision, 6)` and the day-gated two-template
rendering; the hour component always lies in [0, 24); and offset 90000
normalizes to 1 day, 1 hour, 0 minutes, 0 seconds. -/
theorem arbitraryTimeFormatting :
    (∀ (t : ℚ) (p : ℤ), 0 ≤ t → 0 ≤ p → p ≤ 9 →
        format_arbitrary_time t p = format_arbitrary_time_spec t p ∧
        0 ≤ (arb_components t).hours ∧ (arb_components t).hours < 24) ∧
    arb_components 90000 = ⟨1, 1, 0, 0⟩ ∧
    format_arbitrary_time 90000 0 = "1 days 1 hours 0 minutes 0 seconds" := by
  have hfl : ⌊(90000 : ℚ) / 3600⌋ = 25 := by norm_num
  have h90 : arb_components 90000 = ⟨1, 1, 0, 0⟩ := by
    simp only [arb_components]
    rw [hfl]
    rw [show Int.fdiv 25 24 = 1 from by decide,
        show Int.fmod 25 24 = 1 from by decide]
    norm_num
  have hr : pyRoundTo 0 0 = 0 := by
    unfold pyRoundTo pow10 roundHalfEven
    norm_num
  refine ⟨?_, h90, ?_⟩
  · intro t p ht hp hp9
    refine ⟨?_, ?_, ?_⟩
    · simp only [format_arbitrary_time, format_arbitrary_time_spec, arb_components]
      rw [show (if p > 6 then 6 else p) = min p 6 from by split <;> omega]
      rfl
    · simp only [arb_components]
      exact Int.fmod_nonneg' _ (by norm_num)
    · simp only [arb_components]
      exact Int.fmod_lt_of_pos _ (by norm_num)
  · simp only [format_arbitrary_time]
    rw [h90]
    rw [show (if (0 : ℤ) > 6 then 6 else (0 : ℤ)) = 0 from by decide]
    rw [show (⟨1, 1, 0, 0⟩ : ArbParts).seconds = 0 from rfl]
    rw [hr]
    decide

/-- A closed instance of the arbitrary-origin formatting property at the
25-hour offset with precision 0. -/
theorem arbitraryTimeFormattingWitness :
    format_arbitrary_time 90000 0 = format_arbitrary_time_spec 90000 0 ∧
    0 ≤ (arb_components 90000).hours ∧ (arb_components 90000).hours < 24 :=
  arbitraryTimeFormatting.1 90000 0 (by decide) (by decide) (by decide)
